import Mathlib

/-!
Verification of the token-stream state machine of the `TokenVisualizer`
client (`src/static/js/app.js`).  The client keeps a prompt string and an
ordered history of token decisions; generation responses are folded into
the history, and picking an alternative token truncates and rewrites it.

Probabilities are JavaScript floating-point numbers; they are embedded as
rationals (`ℚ`), on which the threshold comparisons of
`getProbabilityClass` are exact.
-/

/-- One candidate token of a generation step, as delivered by the service:
`{token_id, token_text, probability}`. -/
structure AlternativeToken where
  token_id : Int
  token_text : String
  probability : ℚ
deriving Repr, DecidableEq, Inhabited

/-- One entry of `generatedTokensData`, built by `TokenVisualizer.addToken`:
the chosen token, the ranked alternatives, and the index assigned at
append time. -/
structure TokenDecision where
  selected : AlternativeToken
  alternatives : List AlternativeToken
  index : Nat
deriving Repr, DecidableEq, Inhabited

/-- The client state relevant to the token-stream core:
`isModelInitialized`, `originalPrompt` and `generatedTokensData`
of the `TokenVisualizer` constructor. -/
structure VisualizerState where
  isModelInitialized : Bool
  originalPrompt : String
  generatedTokensData : List TokenDecision
deriving Repr, DecidableEq, Inhabited

namespace TokenVisualizer

/-- Source `TokenVisualizer.addToken(selectedToken, topKTokens)`: builds
`{selected, alternatives, index: this.generatedTokensData.length}` and
pushes it onto `generatedTokensData`. -/
def addToken (s : VisualizerState) (selectedToken : AlternativeToken)
    (topKTokens : List AlternativeToken) : VisualizerState :=
  { s with generatedTokensData :=
      s.generatedTokensData ++
        [{ selected := selectedToken
           alternatives := topKTokens
           index := s.generatedTokensData.length }] }

/-- Source `TokenVisualizer.getCurrentText()`: starts from `originalPrompt` and
appends `tokenData.selected.token_text` for each history entry. -/
def getCurrentText (s : VisualizerState) : String :=
  s.generatedTokensData.foldl
    (fun text tokenData => text ++ tokenData.selected.token_text)
    s.originalPrompt

/-- Source line `this.generatedTokensData[tokenIndex].selected = selectedToken` of
`selectAlternativeToken`: in-place replacement of the `selected` field of
the entry at `tokenIndex`, all other entries untouched. -/
def setSelected : List TokenDecision → Nat → AlternativeToken → List TokenDecision
  | [], _, _ => []
  | d :: ds, 0, t => { d with selected := t } :: ds
  | d :: ds, n + 1, t => d :: setSelected ds n t

/-- Source `TokenVisualizer.selectAlternativeToken(tokenIndex, selectedToken)`:
overwrites `generatedTokensData[tokenIndex].selected`, then slices the
history to `tokenIndex + 1` entries.  An out-of-range index makes the
JavaScript assignment throw (property of `undefined`) before any state
change, embedded as `none`. -/
def selectAlternativeToken (s : VisualizerState) (tokenIndex : Nat)
    (selectedToken : AlternativeToken) : Option VisualizerState :=
  if tokenIndex < s.generatedTokensData.length then
    some { s with
      generatedTokensData :=
        List.take (tokenIndex + 1)
          (setSelected s.generatedTokensData tokenIndex selectedToken) }
  else none

/-- Source `TokenVisualizer.updatePromptDisplay()`: copies the prompt input into
`originalPrompt`.  `generatedTokensData` is not touched. -/
def updatePromptDisplay (s : VisualizerState) (promptInputValue : String) :
    VisualizerState :=
  { s with originalPrompt := promptInputValue }

/-- Source `TokenVisualizer.reset()`: clears `generatedTokensData` and
`originalPrompt`. -/
def reset (_s : VisualizerState) : VisualizerState :=
  { isModelInitialized := _s.isModelInitialized
    originalPrompt := ""
    generatedTokensData := [] }

/-- Body of a `/generate_next_token` response after `response.json()`:
either `{status: "success", selected_token, top_k_tokens}` or a
non-success status with a message. -/
inductive ServiceResponse where
  | success (selected_token : AlternativeToken)
      (top_k_tokens : List AlternativeToken)
  | failure (message : String)
deriving Repr, DecidableEq

/-- Body of a `/generate_to_end` response after `response.json()`:
`{status: "success", generated_tokens: [{selected_token, top_k_tokens}…]}`
or a non-success status with a message. -/
inductive ToEndResponse where
  | success
      (generated_tokens : List (AlternativeToken × List AlternativeToken))
  | failure (message : String)
deriving Repr, DecidableEq

/-- Source `TokenVisualizer.generateNextToken()`, with the outcome of the network
round trip made explicit: `none` is a thrown fetch/parse error (the
`catch` branch).  Only the `status === "success"` branch calls `addToken`;
the error branches merely log. -/
def generateNextToken (s : VisualizerState)
    (response : Option ServiceResponse) : VisualizerState :=
  if !s.isModelInitialized then s
  else
    match response with
    | some (.success sel topk) => addToken s sel topk
    | some (.failure _) => s
    | none => s

/-- Source `TokenVisualizer.generateToEnd()`, with the network outcome explicit:
on success it loops `for (const tokenData of data.generated_tokens)`
calling `addToken`; the error branches merely log. -/
def generateToEnd (s : VisualizerState)
    (response : Option ToEndResponse) : VisualizerState :=
  if !s.isModelInitialized then s
  else
    match response with
    | some (.success toks) =>
        toks.foldl (fun st td => addToken st td.1 td.2) s
    | some (.failure _) => s
    | none => s

/-- Source `TokenVisualizer.getProbabilityClass(probability)` returns one of five
CSS classes. -/
inductive ProbClass where
  | probVeryHigh
  | probHigh
  | probMedium
  | probLow
  | probVeryLow
deriving Repr, DecidableEq

/-- Source `TokenVisualizer.getProbabilityClass` of `src/static/js/app.js`:
fixed thresholds 0.6, 0.25, 0.1, 0.03, written as the rationals
`mkRat 6 10`, `mkRat 25 100`, `mkRat 1 10`, `mkRat 3 100`. -/
def getProbabilityClass (probability : ℚ) : ProbClass :=
  if probability > mkRat 6 10 then .probVeryHigh
  else if probability > mkRat 25 100 then .probHigh
  else if probability > mkRat 1 10 then .probMedium
  else if probability > mkRat 3 100 then .probLow
  else .probVeryLow

/-- Ordering of the visual tiers, `prob-very-low` lowest. -/
def classRank : ProbClass → Nat
  | .probVeryLow => 0
  | .probLow => 1
  | .probMedium => 2
  | .probHigh => 3
  | .probVeryHigh => 4

/-- The operations the spec's Session State exposes, each mapped to its
realization in `TokenVisualizer`. -/
inductive Op where
  | append (selectedToken : AlternativeToken)
      (topKTokens : List AlternativeToken)
  | truncateAndReplace (position : Nat) (newSelected : AlternativeToken)
  | setPrompt (text : String)
  | resetOp
deriving Repr, DecidableEq

/-- Applying one operation to the state.  An out-of-range
`truncateAndReplace` throws in the source before mutating anything, so the
state is returned unchanged. -/
def applyOp (s : VisualizerState) : Op → VisualizerState
  | .append sel topk => addToken s sel topk
  | .truncateAndReplace p t => (selectAlternativeToken s p t).getD s
  | .setPrompt text => updatePromptDisplay s text
  | .resetOp => reset s

/-- The contiguity invariant: every history entry's stored `index` equals
its list position. -/
def posInv (l : List TokenDecision) : Prop :=
  ∀ i, i < l.length → (l.getD i default).index = i

instance (l : List TokenDecision) : Decidable (posInv l) :=
  Nat.decidableBallLT l.length fun i _ => (l.getD i default).index = i

/-- Folding a whole list of `(selected_token, top_k_tokens)` pairs into the
state, one `addToken` at a time. -/
def appendAll (s : VisualizerState)
    (toks : List (AlternativeToken × List AlternativeToken)) :
    VisualizerState :=
  toks.foldl (fun st td => addToken st td.1 td.2) s

/-- The decisions `addToken` builds from a stream of pairs when the history
already holds `n` entries. -/
def decisionsFrom (n : Nat) :
    List (AlternativeToken × List AlternativeToken) → List TokenDecision
  | [] => []
  | td :: tds =>
      { selected := td.1, alternatives := td.2, index := n } ::
        decisionsFrom (n + 1) tds

end TokenVisualizer

namespace TokenVisualizer

/-- The concatenation of the selected tokens' display texts of a history,
in order: the spec's "display text of every `selected` token in Decision
History, in order". -/
def selectedTextsConcat : List TokenDecision → String
  | [] => ""
  | d :: ds => d.selected.token_text ++ selectedTextsConcat ds

/-- The concatenation of the selected texts of a stream of
`(selected_token, top_k_tokens)` pairs. -/
def pairTextsConcat :
    List (AlternativeToken × List AlternativeToken) → String
  | [] => ""
  | td :: tds => td.1.token_text ++ pairTextsConcat tds

end TokenVisualizer

open TokenVisualizer

/-- Sample token: the `" sat"` / 82 % candidate of the spec's scenario. -/
def satTok : AlternativeToken :=
  { token_id := 673, token_text := " sat", probability := mkRat 82 100 }

/-- Sample token: the `" ran"` / 9 % candidate of the spec's scenario. -/
def ranTok : AlternativeToken :=
  { token_id := 1122, token_text := " ran", probability := mkRat 9 100 }

/-- Sample state: prompt `"The cat"` with one generated decision. -/
def sampleState : VisualizerState :=
  { isModelInitialized := true
    originalPrompt := "The cat"
    generatedTokensData :=
      [{ selected := satTok, alternatives := [satTok, ranTok], index := 0 }] }

/-- Sample state: initialized model, empty prompt, empty history. -/
def readyEmptyState : VisualizerState :=
  { isModelInitialized := true, originalPrompt := "", generatedTokensData := [] }

namespace TokenVisualizer

lemma foldl_text_eq (l : List TokenDecision) (init : String) :
    l.foldl (fun text tokenData => text ++ tokenData.selected.token_text) init
      = init ++ selectedTextsConcat l := by
  induction l generalizing init with
  | nil => simp [selectedTextsConcat]
  | cons d ds ih =>
      simp [List.foldl_cons, selectedTextsConcat, ih, String.append_assoc]

lemma getCurrentText_eq (s : VisualizerState) :
    getCurrentText s
      = s.originalPrompt ++ selectedTextsConcat s.generatedTokensData :=
  foldl_text_eq s.generatedTokensData s.originalPrompt

lemma appendAll_history (s : VisualizerState)
    (toks : List (AlternativeToken × List AlternativeToken)) :
    (appendAll s toks).generatedTokensData
      = s.generatedTokensData
          ++ decisionsFrom s.generatedTokensData.length toks := by
  induction toks generalizing s with
  | nil => simp [appendAll, decisionsFrom]
  | cons td tds ih =>
      show (appendAll (addToken s td.1 td.2) tds).generatedTokensData = _
      rw [ih]
      simp [addToken, decisionsFrom]

lemma appendAll_prompt (s : VisualizerState)
    (toks : List (AlternativeToken × List AlternativeToken)) :
    (appendAll s toks).originalPrompt = s.originalPrompt := by
  induction toks generalizing s with
  | nil => rfl
  | cons td tds ih =>
      show (appendAll (addToken s td.1 td.2) tds).originalPrompt = _
      rw [ih]
      rfl

lemma selectedTextsConcat_decisionsFrom (n : Nat)
    (toks : List (AlternativeToken × List AlternativeToken)) :
    selectedTextsConcat (decisionsFrom n toks) = pairTextsConcat toks := by
  induction toks generalizing n with
  | nil => rfl
  | cons td tds ih =>
      simp [decisionsFrom, selectedTextsConcat, pairTextsConcat, ih]

lemma decisionsFrom_length (n : Nat)
    (toks : List (AlternativeToken × List AlternativeToken)) :
    (decisionsFrom n toks).length = toks.length := by
  induction toks generalizing n with
  | nil => rfl
  | cons td tds ih => simp [decisionsFrom, ih]

end TokenVisualizer

/-- C1: for every prompt string and every sequence of `append` operations
(`addToken`, which itself assigns the strictly increasing contiguous
positions `0, 1, 2, …`), `getCurrentText` returns the prompt concatenated
with the display text of each decision's selected token, in history
order. -/
theorem currentText_after_appendAll (prompt : String)
    (toks : List (AlternativeToken × List AlternativeToken)) :
    getCurrentText
        (appendAll
          { isModelInitialized := true
            originalPrompt := prompt
            generatedTokensData := [] } toks)
      = prompt ++ pairTextsConcat toks := by
  rw [TokenVisualizer.getCurrentText_eq, TokenVisualizer.appendAll_prompt,
    TokenVisualizer.appendAll_history]
  simp [TokenVisualizer.selectedTextsConcat_decisionsFrom]

namespace TokenVisualizer

lemma setSelected_length (l : List TokenDecision) (n : Nat)
    (t : AlternativeToken) : (setSelected l n t).length = l.length := by
  induction l generalizing n with
  | nil => rfl
  | cons d ds ih =>
      cases n with
      | zero => rfl
      | succ m => simp [setSelected, ih]

lemma getD_setSelected_self (l : List TokenDecision) (n : Nat)
    (t : AlternativeToken) (d0 : TokenDecision) (h : n < l.length) :
    (setSelected l n t).getD n d0 = { l.getD n d0 with selected := t } := by
  induction l generalizing n with
  | nil => simp at h
  | cons d ds ih =>
      cases n with
      | zero => rfl
      | succ m =>
          simp only [setSelected, List.getD_cons_succ]
          exact ih m (by simpa using h)

lemma getD_setSelected_ne (l : List TokenDecision) (n : Nat)
    (t : AlternativeToken) (d0 : TokenDecision) (i : Nat) (h : i ≠ n) :
    (setSelected l n t).getD i d0 = l.getD i d0 := by
  induction l generalizing n i with
  | nil => rfl
  | cons d ds ih =>
      cases n with
      | zero =>
          cases i with
          | zero => exact absurd rfl h
          | succ j => rfl
      | succ m =>
          cases i with
          | zero => rfl
          | succ j =>
              simp only [setSelected, List.getD_cons_succ]
              exact ih m j (by omega)

lemma index_getD_setSelected (l : List TokenDecision) (n : Nat)
    (t : AlternativeToken) (d0 : TokenDecision) (i : Nat) :
    ((setSelected l n t).getD i d0).index = (l.getD i d0).index := by
  by_cases h : i = n
  · subst h
    rcases Nat.lt_or_ge i l.length with hlt | hge
    · rw [getD_setSelected_self l i t d0 hlt]
    · rw [List.getD_eq_default, List.getD_eq_default]
      · exact hge
      · rw [setSelected_length]; exact hge
  · rw [getD_setSelected_ne l n t d0 i h]

lemma getD_take_of_lt (l : List TokenDecision) (n i : Nat)
    (d0 : TokenDecision) (h : i < n) :
    (l.take n).getD i d0 = l.getD i d0 := by
  simp [List.getD_eq_getElem?_getD, List.getElem?_take, h]

end TokenVisualizer

/-- C2: for every history of length `n` and every position `p < n`,
`truncateAndReplace(p, t)` — realized by `selectAlternativeToken` — leaves
the history with length exactly `p + 1`, with the decision at index `p`
having `selected = t`, and with the alternatives list at index `p`
unchanged from before the call. -/
theorem truncateAndReplace_spec (s : VisualizerState) (p : Nat)
    (t : AlternativeToken) (h : p < s.generatedTokensData.length) :
    ∃ s', selectAlternativeToken s p t = some s'
      ∧ s'.generatedTokensData.length = p + 1
      ∧ (s'.generatedTokensData.getD p default).selected = t
      ∧ (s'.generatedTokensData.getD p default).alternatives
          = (s.generatedTokensData.getD p default).alternatives := by
  refine ⟨_, by rw [selectAlternativeToken, if_pos h], ?_, ?_, ?_⟩
  · simp [TokenVisualizer.setSelected_length]
    omega
  · rw [TokenVisualizer.getD_take_of_lt _ _ _ _ (Nat.lt_succ_self p),
      TokenVisualizer.getD_setSelected_self _ _ _ _ h]
  · rw [TokenVisualizer.getD_take_of_lt _ _ _ _ (Nat.lt_succ_self p),
      TokenVisualizer.getD_setSelected_self _ _ _ _ h]

/-- Witness for C2: truncating `sampleState` at position 0 with `" ran"`
keeps one decision, its selected token becomes `" ran"`, and its
alternatives list is unchanged. -/
theorem truncateAndReplace_spec_witness :
    0 < sampleState.generatedTokensData.length
      ∧ ∃ s', selectAlternativeToken sampleState 0 ranTok = some s'
          ∧ s'.generatedTokensData.length = 0 + 1
          ∧ (s'.generatedTokensData.getD 0 default).selected = ranTok
          ∧ (s'.generatedTokensData.getD 0 default).alternatives
              = (sampleState.generatedTokensData.getD 0 default).alternatives :=
  ⟨by decide, truncateAndReplace_spec sampleState 0 ranTok (by decide)⟩

/-- Counterexample to C3 as stated: `setPrompt` is realized by
`updatePromptDisplay`, which only replaces `originalPrompt` and does NOT
clear `generatedTokensData`.  On `sampleState` (non-empty history),
replacing the prompt with `"A dog"` leaves the decision in place, and
`getCurrentText` returns `"A dog sat"`, not `"A dog"`. -/
theorem setPrompt_counterexample :
    getCurrentText (updatePromptDisplay sampleState "A dog") ≠ "A dog"
      ∧ (updatePromptDisplay sampleState "A dog").generatedTokensData
          ≠ [] := by
  constructor
  · decide
  · decide

/-- C3 amended: `updatePromptDisplay(text)` replaces the Prompt and leaves
the Decision History unchanged, so `getCurrentText()` afterwards returns
`text` concatenated with the selected texts of the untouched history. -/
theorem updatePromptDisplay_spec (s : VisualizerState) (text : String) :
    (updatePromptDisplay s text).originalPrompt = text
      ∧ (updatePromptDisplay s text).generatedTokensData
          = s.generatedTokensData
      ∧ getCurrentText (updatePromptDisplay s text)
          = text ++ selectedTextsConcat s.generatedTokensData :=
  ⟨rfl, rfl, TokenVisualizer.getCurrentText_eq _⟩

/-- Counterexample to C4 as stated: the code's `append` is `addToken`,
which takes no position and has no `InvalidPositionError` path.  Feeding
it the fields of a decision carrying position 5 against an empty history
(so `position ≠ len(history)`) does not fail and does not leave the
history unchanged: it appends, itself assigning position 0. -/
theorem append_counterexample :
    (5 : Nat) ≠ readyEmptyState.generatedTokensData.length
      ∧ (addToken readyEmptyState satTok [satTok, ranTok]).generatedTokensData
          ≠ readyEmptyState.generatedTokensData
      ∧ ((addToken readyEmptyState satTok
            [satTok, ranTok]).generatedTokensData.getD 0 default).index
          = 0 := by
  refine ⟨by decide, by decide, by decide⟩

/-- C4 amended: `append` (realized by `addToken`) always succeeds; it
receives only the selected token and the alternatives, appends exactly one
decision, and itself assigns that decision's position as `len(history)`,
so the appended decision's position equals the pre-call history length by
construction.  No `InvalidPositionError` path exists. -/
theorem addToken_spec (s : VisualizerState) (sel : AlternativeToken)
    (topk : List AlternativeToken) :
    (addToken s sel topk).generatedTokensData
      = s.generatedTokensData ++
          [{ selected := sel
             alternatives := topk
             index := s.generatedTokensData.length }] := rfl

/-- C7: a failing single-step generation call — a service-reported
non-success status or a thrown network/parse error — leaves the whole
state (prompt and history alike) exactly as before the call. -/
theorem generateNextToken_failure_spec (s : VisualizerState) (msg : String) :
    generateNextToken s (some (.failure msg)) = s
      ∧ generateNextToken s none = s := by
  cases h : s.isModelInitialized <;>
    simp [generateNextToken, h]

/-- C8: the probability-to-tier mapping `getProbabilityClass` is a total
function on ℚ (hence defined on all of `[0,1]`), and it is monotone: a
smaller probability is never assigned a higher tier. -/
theorem getProbabilityClass_monotone (p1 p2 : ℚ) (h : p1 < p2) :
    classRank (getProbabilityClass p1) ≤ classRank (getProbabilityClass p2) := by
  have t1 : (mkRat 3 100 : ℚ) < mkRat 1 10 := by decide
  have t2 : (mkRat 1 10 : ℚ) < mkRat 25 100 := by decide
  have t3 : (mkRat 25 100 : ℚ) < mkRat 6 10 := by decide
  unfold getProbabilityClass
  split_ifs <;> simp [classRank] <;> linarith

/-- Witness for C8: 0.09 < 0.82, and the tier of 0.09 ranks no higher than
the tier of 0.82. -/
theorem getProbabilityClass_monotone_witness :
    (mkRat 9 100 : ℚ) < mkRat 82 100
      ∧ classRank (getProbabilityClass (mkRat 9 100))
          ≤ classRank (getProbabilityClass (mkRat 82 100)) :=
  ⟨by decide, getProbabilityClass_monotone (mkRat 9 100) (mkRat 82 100) (by decide)⟩

namespace TokenVisualizer

/-- Modelled from the spec: the sampling backend (the Flask service behind
`/generate_next_token`) is not among the source files; per the spec,
immediately after generation the selected token "always equals the
highest-ranked alternative returned by the service's sampling policy",
and the alternatives are ranked descending, so a conforming single-step
success response carries `selected_token = top_k_tokens[0]`. -/
def serviceRespectsRanking : ServiceResponse → Prop
  | .success sel topk => sel = topk.getD 0 default
  | .failure _ => True

end TokenVisualizer

/-- C5: for every successful single-step response that satisfies the
spec-modelled service ranking policy, `generateNextToken` appends a
decision whose `selected` and `alternatives` are the service's
`selected_token` and `top_k_tokens`, copied unchanged — hence its selected
token equals the highest-ranked (first) element of its alternatives list.
Only a later `selectAlternativeToken` override can make them diverge. -/
theorem generateNext_selected_is_top (s : VisualizerState)
    (sel : AlternativeToken) (topk : List AlternativeToken)
    (hinit : s.isModelInitialized = true)
    (hr : serviceRespectsRanking (.success sel topk)) :
    (generateNextToken s (some (.success sel topk))).generatedTokensData
      = s.generatedTokensData ++
          [{ selected := sel
             alternatives := topk
             index := s.generatedTokensData.length }]
      ∧ sel = topk.getD 0 default := by
  refine ⟨?_, hr⟩
  simp [generateNextToken, hinit, addToken]

/-- Witness for C5: a ready state and a conforming response, folded. -/
theorem generateNext_selected_is_top_witness :
    (readyEmptyState.isModelInitialized = true
        ∧ serviceRespectsRanking (.success satTok [satTok, ranTok]))
      ∧ ((generateNextToken readyEmptyState
            (some (.success satTok [satTok, ranTok]))).generatedTokensData
          = readyEmptyState.generatedTokensData ++
              [{ selected := satTok
                 alternatives := [satTok, ranTok]
                 index := readyEmptyState.generatedTokensData.length }]
          ∧ satTok = [satTok, ranTok].getD 0 default) :=
  ⟨⟨rfl, rfl⟩,
    generateNext_selected_is_top readyEmptyState satTok [satTok, ranTok]
      rfl rfl⟩

/-- C6: a run-to-end success response carrying `k` complete decisions is
folded by `generateToEnd` into exactly those `k` decisions, appended to
the history in the order received; a response carrying no complete
decision (non-success status, or a stream cut short before the body could
be parsed) leaves the state unchanged, with no synthetic or partial
decision appended and no rollback of the existing history. -/
theorem generateToEnd_spec (s : VisualizerState)
    (toks : List (AlternativeToken × List AlternativeToken)) (msg : String)
    (h : s.isModelInitialized = true) :
    (generateToEnd s (some (.success toks))).generatedTokensData
        = s.generatedTokensData
            ++ decisionsFrom s.generatedTokensData.length toks
      ∧ (decisionsFrom s.generatedTokensData.length toks).length = toks.length
      ∧ generateToEnd s (some (.failure msg)) = s
      ∧ generateToEnd s none = s := by
  refine ⟨?_, TokenVisualizer.decisionsFrom_length _ _, ?_, ?_⟩
  · have heq : generateToEnd s (some (.success toks)) = appendAll s toks := by
      simp [generateToEnd, h, appendAll]
    rw [heq, TokenVisualizer.appendAll_history]
  · simp [generateToEnd, h]
  · simp [generateToEnd, h]

/-- The two-decision response stream of the spec's run-to-end scenario. -/
def twoStepStream : List (AlternativeToken × List AlternativeToken) :=
  [(satTok, [satTok, ranTok]), (ranTok, [satTok, ranTok])]

/-- Witness for C6: folding a two-decision success response, and the two
failure shapes, on a ready empty state. -/
theorem generateToEnd_spec_witness :
    readyEmptyState.isModelInitialized = true
      ∧ ((generateToEnd readyEmptyState
            (some (.success twoStepStream))).generatedTokensData
          = readyEmptyState.generatedTokensData
              ++ decisionsFrom readyEmptyState.generatedTokensData.length
                  twoStepStream
        ∧ (decisionsFrom readyEmptyState.generatedTokensData.length
              twoStepStream).length = twoStepStream.length
        ∧ generateToEnd readyEmptyState (some (.failure "boom"))
            = readyEmptyState
        ∧ generateToEnd readyEmptyState none = readyEmptyState) :=
  ⟨rfl, generateToEnd_spec readyEmptyState twoStepStream "boom" rfl⟩

/-- C9: every Session State operation — append (`addToken`),
truncate-and-replace (`selectAlternativeToken`), set-prompt
(`updatePromptDisplay`) and `reset` — preserves the invariant that every
history entry's stored position equals its index, i.e. the history stays a
contiguous, gap-free prefix of generation order. -/
theorem applyOp_preserves_posInv (op : Op) (s : VisualizerState)
    (h : posInv s.generatedTokensData) :
    posInv (applyOp s op).generatedTokensData := by
  cases op with
  | append sel topk =>
      intro i hi
      simp only [applyOp, addToken] at hi ⊢
      rcases Nat.lt_or_ge i s.generatedTokensData.length with hlt | hge
      · rw [List.getD_append _ _ _ _ hlt]
        exact h i hlt
      · have hlen : i = s.generatedTokensData.length := by
          simp only [List.length_append, List.length_singleton] at hi
          omega
        subst hlen
        rw [List.getD_append_right _ _ _ _ (le_refl _)]
        simp
  | truncateAndReplace p t =>
      by_cases hp : p < s.generatedTokensData.length
      · intro i hi
        simp only [applyOp, selectAlternativeToken, if_pos hp,
          Option.getD_some] at hi ⊢
        have h1 : i < p + 1 := by
          simp only [List.length_take,
            TokenVisualizer.setSelected_length] at hi
          omega
        have h2 : i < s.generatedTokensData.length := by
          simp only [List.length_take,
            TokenVisualizer.setSelected_length] at hi
          omega
        rw [TokenVisualizer.getD_take_of_lt _ _ _ _ h1,
          TokenVisualizer.index_getD_setSelected]
        exact h i h2
      · simpa [applyOp, selectAlternativeToken, if_neg hp] using h
  | setPrompt text => exact h
  | resetOp =>
      intro i hi
      simp [applyOp, reset] at hi

/-- Sample state with two generated decisions. -/
def sampleState2 : VisualizerState :=
  { isModelInitialized := true
    originalPrompt := "The cat"
    generatedTokensData :=
      [{ selected := satTok, alternatives := [satTok, ranTok], index := 0 },
       { selected := ranTok, alternatives := [satTok, ranTok], index := 1 }] }

/-- Witness for C9: truncate-and-replace at position 0 on a state whose
history satisfies the position invariant; the invariant still holds. -/
theorem applyOp_preserves_posInv_witness :
    posInv sampleState.generatedTokensData
      ∧ posInv
          (applyOp sampleState (.truncateAndReplace 0 ranTok)).generatedTokensData :=
  ⟨by decide,
    applyOp_preserves_posInv (.truncateAndReplace 0 ranTok) sampleState
      (by decide)⟩

/-- C10: for every position `p < len(history)`,
`selectAlternativeToken(p, t)` leaves every decision at an index strictly
below `p` completely unchanged (selected token, alternatives list and
position alike) and leaves the Prompt unchanged. -/
theorem truncateAndReplace_frame (s : VisualizerState) (p : Nat)
    (t : AlternativeToken) (h : p < s.generatedTokensData.length) :
    ∃ s', selectAlternativeToken s p t = some s'
      ∧ s'.originalPrompt = s.originalPrompt
      ∧ ∀ i, i < p → s'.generatedTokensData.getD i default
          = s.generatedTokensData.getD i default := by
  refine ⟨_, by rw [selectAlternativeToken, if_pos h], ?_, ?_⟩
  · rfl
  · intro i hip
    rw [TokenVisualizer.getD_take_of_lt _ _ _ _ (Nat.lt_succ_of_lt hip),
      TokenVisualizer.getD_setSelected_ne _ _ _ _ _ (Nat.ne_of_lt hip)]

/-- Witness for C10: truncating `sampleState2` at position 1 keeps
decision 0 untouched and preserves the prompt. -/
theorem truncateAndReplace_frame_witness :
    1 < sampleState2.generatedTokensData.length
      ∧ ∃ s', selectAlternativeToken sampleState2 1 satTok = some s'
          ∧ s'.originalPrompt = sampleState2.originalPrompt
          ∧ ∀ i, i < 1 → s'.generatedTokensData.getD i default
              = sampleState2.generatedTokensData.getD i default :=
  ⟨by decide, truncateAndReplace_frame sampleState2 1 satTok (by decide)⟩
